import Mathlib

/-
  Shallow embedding of the CDP projection layer of node-network-devtools.

  Source files embedded:
  - src/packages/network-debugger/src/core/index.ts (DevtoolServer, toMimeType,
    frameId, loaderId)
  - src/packages/network-debugger/src/common.ts (RequestDetail call-frame
    construction, IS_DEV_MODE)

  JavaScript strings are modelled as Lean String, header containers as
  association lists, optional / possibly-undefined values as Option, the
  millisecond wall clock (Date.now()) as Int, and CDP timestamps (seconds,
  computed by division by 1000) as Rat.
-/

namespace NodeNetworkDevtools

/-- JSON values as handled by the host JSON object (request bodies are
arbitrary JavaScript values serialised to JSON on the wire). -/
inductive Json where
  | null
  | bool (b : Bool)
  | num (n : Int)
  | str (s : String)
  | arr (elems : List Json)
  | obj (fields : List (String × Json))

/-- JSON string escaping for the characters that need it in a minimal model. -/
def escapeChar (c : Char) : List Char :=
  if c = '"' then ['\\', '"']
  else if c = '\\' then ['\\', '\\']
  else [c]

mutual
/-- JSON.stringify. -/
def Json.stringify : Json → String
  | .null => "null"
  | .bool true => "true"
  | .bool false => "false"
  | .num n => toString n
  | .str s => "\"" ++ String.mk (s.data.map escapeChar).flatten ++ "\""
  | .arr elems => "[" ++ String.intercalate "," (stringifyList elems) ++ "]"
  | .obj fields => "\x7b" ++ String.intercalate "," (stringifyFields fields) ++ "\x7d"

/-- Serialise a list of JSON values. -/
def stringifyList : List Json → List String
  | [] => []
  | x :: xs => Json.stringify x :: stringifyList xs

/-- Serialise the fields of a JSON object. -/
def stringifyFields : List (String × Json) → List String
  | [] => []
  | (k, v) :: fs => ("\"" ++ k ++ "\":" ++ Json.stringify v) :: stringifyFields fs
end

/-- JavaScript truthiness of a JSON value: undefined is modelled by
Option.none outside this function; null, false, 0 and the empty string are
falsy, every array and object is truthy. -/
def Json.truthy : Json → Bool
  | .null => false
  | .bool b => b
  | .num n => n != 0
  | .str s => s != ""
  | .arr _ => true
  | .obj _ => true

/-- Lowercase a string character by character. -/
def lowerStr (s : String) : String :=
  String.mk (s.data.map Char.toLower)

/-- Substring containment on character lists (the semantics of a JavaScript
regular-expression test against a plain literal pattern, and of
String.prototype.includes). -/
def listContains (pat : List Char) : List Char → Bool
  | [] => pat.isEmpty
  | c :: cs => List.isPrefixOf pat (c :: cs) || listContains pat cs

/-- JavaScript s.includes(pat) / the test of a literal regular expression. -/
def strContains (s pat : String) : Bool :=
  listContains pat.data s.data

/-- JavaScript s.startsWith(pre). -/
def strStartsWith (s pre : String) : Bool :=
  List.isPrefixOf pre.data s.data

/-- JavaScript String.prototype.split with a single-character separator:
always returns at least one (possibly empty) component. -/
def jsSplit (sep : Char) : List Char → List (List Char)
  | [] => [[]]
  | c :: cs =>
    if c = sep then [] :: jsSplit sep cs
    else
      match jsSplit sep cs with
      | [] => [[c]]
      | h :: t => (c :: h) :: t

/-- JavaScript x || d for an optional string x (undefined and the empty
string are falsy). -/
def jsOrString (x : Option String) (d : String) : String :=
  match x with
  | none => d
  | some s => if s = "" then d else s

/-- JavaScript x || d for an optional natural number x (undefined and 0 are
falsy). -/
def jsOrNat (x : Option Nat) (d : Nat) : Nat :=
  match x with
  | none => d
  | some n => if n = 0 then d else n

/-- Modelled from the spec: RequestHeaderPipe.getHeader
(src/packages/network-debugger/src/core/pipe.ts is not under src/).
Case-insensitive lookup returning the first value, or undefined. -/
def getHeader (headers : List (String × String)) (name : String) : Option String :=
  (headers.find? (fun p => lowerStr p.1 == lowerStr name)).map Prod.snd

/-- A raw stack frame delivered by the stack source; unresolved fields are
undefined (src/packages/network-debugger/src/common.ts lines 21 to 29). -/
structure StackFrame where
  fileName : Option String
  functionName : Option String
  lineNumber : Option Nat
  columnNumber : Option Nat
  deriving DecidableEq

/-- A CDP call frame (interface CDPCallFrame in common.ts). -/
structure CDPCallFrame where
  columnNumber : Nat
  functionName : String
  lineNumber : Nat
  url : String
  deriving DecidableEq

/-- The call-frame mapping performed in the RequestDetail constructor
(common.ts lines 21 to 29): defaults via JavaScript ||, and a fileName
beginning with / is rewritten to a file:// url. -/
def toCDPCallFrame (frame : StackFrame) : CDPCallFrame :=
  let fileName := jsOrString frame.fileName ""
  { columnNumber := jsOrNat frame.columnNumber 0
    functionName := jsOrString frame.functionName ""
    lineNumber := jsOrNat frame.lineNumber 0
    url := if strStartsWith fileName "/" then "file://" ++ fileName else fileName }

/-- The initiator block of a RequestDetail (common.ts lines 31 to 38). -/
structure Initiator where
  type : String
  callFrames : List CDPCallFrame
  deriving DecidableEq

/-- The initiator set in the RequestDetail constructor: present only when the
mapped call-frame list is non-empty (common.ts lines 31 to 38). -/
def mkInitiator (frames : List StackFrame) : Option Initiator :=
  let callFrames := frames.map toCDPCallFrame
  if callFrames.length > 0 then some { type := "script", callFrames := callFrames } else none

/-- responseInfo of a RequestDetail (common.ts lines 51 to 54); both fields
are optional. -/
structure ResponseInfo where
  encodedDataLength : Option Nat
  dataLength : Option Nat
  deriving DecidableEq

/-- class RequestDetail (common.ts): the record fields consumed by the
DevtoolServer projection. -/
structure RequestDetail where
  id : String
  url : Option String
  method : Option String
  requestHeaders : List (String × String)
  requestData : Option Json
  responseStatusCode : Option Nat
  responseHeaders : List (String × String)
  responseInfo : ResponseInfo
  requestStartTime : Option Int
  initiator : Option Initiator

/-- const frameId (core/index.ts line 56). -/
def frameId : String := "517.528"

/-- const loaderId (core/index.ts line 57). -/
def loaderId : String := "517.529"

/-- export const toMimeType (core/index.ts lines 59 to 61):
contentType.split(";")[0] || "text/plain". -/
def toMimeType (contentType : String) : String :=
  let first := String.mk ((jsSplit ';' contentType.data).headD [])
  if first = "" then "text/plain" else first

/-- The request block of a Network.requestWillBeSent frame
(core/index.ts lines 203 to 216); postData is absent when the spread of the
conditional expression contributes nothing. -/
structure CDPRequest where
  url : Option String
  method : Option String
  headers : List (String × String)
  initialPriority : String
  mixedContentType : String
  postData : Option Json

/-- The response block of a Network.responseReceived frame
(core/index.ts lines 255 to 264). -/
structure CDPResponse where
  url : Option String
  status : Option Nat
  statusText : String
  headers : List (String × String)
  connectionReused : Bool
  encodedDataLength : Option Nat
  charset : String
  mimeType : String
  deriving DecidableEq

/-- One outbound CDP frame: method plus the union of the params fields used
by the four Network events; a field not present in the emitted JSON object is
none. -/
structure CDPMessage where
  method : String
  requestId : String
  frameId : Option String
  loaderId : Option String
  timestamp : Rat
  wallTime : Option Int
  initiator : Option Initiator
  type : Option String
  request : Option CDPRequest
  response : Option CDPResponse
  dataLength : Option Nat
  encodedDataLength : Option Nat

/-- updateTimestamp (core/index.ts lines 104 to 106): the frame timestamp is
(Date.now() - startTime) / 1000, recomputed from the wall clock reading now. -/
def cdpTimestamp (startTime now : Int) : Rat :=
  ((now - startTime : Int) : Rat) / 1000

/-- The condition contentType?.includes("application/json") on the request
headers (core/index.ts lines 195 and 211): an absent header is falsy. -/
def jsonLikeContentType (r : RequestDetail) : Bool :=
  match getHeader r.requestHeaders "content-type" with
  | some ct => strContains ct "application/json"
  | none => false

/-- DevtoolServer.requestWillBeSent (core/index.ts lines 191 to 223), as the
single frame it sends; now is the Date.now() reading taken by
updateTimestamp at the start of the call. -/
def requestWillBeSent (startTime now : Int) (r : RequestDetail) : CDPMessage :=
  { method := "Network.requestWillBeSent"
    requestId := r.id
    frameId := some frameId
    loaderId := some loaderId
    timestamp := cdpTimestamp startTime now
    wallTime := r.requestStartTime
    initiator := r.initiator
    type := some "Fetch"
    request := some
      { url := r.url
        method := r.method
        headers := r.requestHeaders
        initialPriority := "High"
        mixedContentType := "none"
        postData :=
          match r.requestData with
          | some body =>
            if body.truthy then
              some (if jsonLikeContentType r then Json.str (Json.stringify body) else body)
            else none
          | none => none }
    response := none
    dataLength := none
    encodedDataLength := none }

/-- The content type used by responseReceived (core/index.ts line 229):
headers.getHeader("content-type") || "text/plain; charset=utf-8". -/
def effectiveContentType (r : RequestDetail) : String :=
  jsOrString (getHeader r.responseHeaders "content-type") "text/plain; charset=utf-8"

/-- The type classification in responseReceived (core/index.ts lines 231 to
245): literal regular-expression tests, in order, against the content type. -/
def classifyType (contentType : String) : String :=
  if strContains contentType "image" then "Image"
  else if strContains contentType "javascript" then "Script"
  else if strContains contentType "css" then "Stylesheet"
  else if strContains contentType "html" then "Document"
  else "Other"

/-- The Network.responseReceived frame sent by DevtoolServer.responseReceived
(core/index.ts lines 247 to 266). -/
def responseReceivedMsg (startTime now : Int) (r : RequestDetail) : CDPMessage :=
  let contentType := effectiveContentType r
  { method := "Network.responseReceived"
    requestId := r.id
    frameId := some frameId
    loaderId := some loaderId
    timestamp := cdpTimestamp startTime now
    wallTime := none
    initiator := none
    type := some (classifyType contentType)
    request := none
    response := some
      { url := r.url
        status := r.responseStatusCode
        statusText := if r.responseStatusCode == some 200 then "OK" else ""
        headers := r.responseHeaders
        connectionReused := false
        encodedDataLength := r.responseInfo.encodedDataLength
        charset := "utf-8"
        mimeType := toMimeType contentType }
    dataLength := none
    encodedDataLength := none }

/-- The Network.dataReceived frame (core/index.ts lines 269 to 277). -/
def dataReceivedMsg (startTime now : Int) (r : RequestDetail) : CDPMessage :=
  { method := "Network.dataReceived"
    requestId := r.id
    frameId := none
    loaderId := none
    timestamp := cdpTimestamp startTime now
    wallTime := none
    initiator := none
    type := none
    request := none
    response := none
    dataLength := r.responseInfo.dataLength
    encodedDataLength := r.responseInfo.encodedDataLength }

/-- The Network.loadingFinished frame (core/index.ts lines 279 to 287). -/
def loadingFinishedMsg (startTime now : Int) (r : RequestDetail) : CDPMessage :=
  { method := "Network.loadingFinished"
    requestId := r.id
    frameId := none
    loaderId := none
    timestamp := cdpTimestamp startTime now
    wallTime := none
    initiator := none
    type := none
    request := none
    response := none
    dataLength := none
    encodedDataLength := r.responseInfo.encodedDataLength }

/-- DevtoolServer.responseReceived (core/index.ts lines 225 to 288): sends
responseReceived, dataReceived and loadingFinished in that order, calling
updateTimestamp before each send; now2, now3, now4 are the successive
Date.now() readings. -/
def responseReceived (startTime now2 now3 now4 : Int) (r : RequestDetail) : List CDPMessage :=
  [responseReceivedMsg startTime now2 r,
   dataReceivedMsg startTime now3 r,
   loadingFinishedMsg startTime now4 r]

/-- Modelled from the spec: the request-end handler of the debugger process
(not under src/) projects a completed record by calling
DevtoolServer.requestWillBeSent and then DevtoolServer.responseReceived, so
the four frames of one record go out in this order; now1 to now4 are the
successive Date.now() readings taken by updateTimestamp. -/
def projectRecord (startTime now1 now2 now3 now4 : Int) (r : RequestDetail) : List CDPMessage :=
  requestWillBeSent startTime now1 r :: responseReceived startTime now2 now3 now4 r

/-- Model of DevtoolServer.open (core/index.ts lines 108 to 175) at the level
of its externally visible actions: close a stale inspector tab when the
remote-debugging endpoint reports one, always launch the browser, and on a
non-darwin platform navigate the first tab to the inspector url. The
IS_DEV_MODE early return (lines 111 to 114) is commented out in the source,
so the flow never consults the devMode flag. -/
inductive OpenAction where
  | closeStaleTab
  | launchBrowser
  | navigateInspector
  deriving DecidableEq

/-- The sequence of actions performed by DevtoolServer.open, as a function of
the devMode flag (IS_DEV_MODE, common.ts line 76), of whether a stale
inspector tab was found, and of the platform. -/
def devtoolOpenActions (_devMode : Bool) (staleTabFound : Bool) (darwin : Bool) : List OpenAction :=
  (if staleTabFound then [OpenAction.closeStaleTab] else []) ++
  [OpenAction.launchBrowser] ++
  (if darwin then [] else [OpenAction.navigateInspector])

/-- JavaScript s.endsWith(suf), used only to state the classification the
spec describes. -/
def strEndsWith (s suf : String) : Bool :=
  List.isSuffixOf suf.data s.data

/-- The type classification as the spec words it, for comparison with
classifyType: image/* to Image, */javascript to Script, */css to Stylesheet,
text/html to Document, else Other. -/
def specClassifyType (contentType : String) : String :=
  if strStartsWith contentType "image/" then "Image"
  else if strEndsWith contentType "/javascript" then "Script"
  else if strEndsWith contentType "/css" then "Stylesheet"
  else if contentType = "text/html" then "Document"
  else "Other"

/-- The mime type as the spec words it, for comparison with toMimeType: the
substring of the content type before the first semicolon. -/
def specMimeType (contentType : String) : String :=
  String.mk (contentType.data.takeWhile (fun c => c != ';'))

/-- A concrete record used to instantiate the theorems: a GET of
http://example.com/a with a JSON request body and a 200 text/html response. -/
def sampleRecord : RequestDetail :=
  { id := "req1"
    url := some "http://example.com/a"
    method := some "GET"
    requestHeaders := [("content-type", "application/json")]
    requestData := some (Json.obj [("k", Json.num 1)])
    responseStatusCode := some 200
    responseHeaders := [("content-type", "text/plain")]
    responseInfo := { encodedDataLength := some 5, dataLength := some 5 }
    requestStartTime := some 1700000000000
    initiator := none }

/-- A record whose response carries status 500. -/
def status500Record : RequestDetail :=
  { sampleRecord with responseStatusCode := some 500 }

/-- A record whose response content type is text/html. -/
def htmlRecord : RequestDetail :=
  { sampleRecord with responseHeaders := [("content-type", "text/html")] }

/-- A record whose response content type is text/html; charset=utf-8. -/
def htmlCharsetRecord : RequestDetail :=
  { sampleRecord with responseHeaders := [("content-type", "text/html; charset=utf-8")] }

/-- A record whose response content type starts with a semicolon, so the
substring before the first semicolon is empty. -/
def semiRecord : RequestDetail :=
  { sampleRecord with responseHeaders := [("content-type", ";charset=utf-8")] }

/-- A record whose request body is the empty string: the body exists but is
falsy in JavaScript. -/
def emptyBodyRecord : RequestDetail :=
  { sampleRecord with requestData := some (Json.str "") }

/-- A record with no response headers at all, hence no content-type header. -/
def noContentTypeRecord : RequestDetail :=
  { sampleRecord with responseHeaders := [] }

/-- A raw stack frame whose fileName is an absolute path and whose other
fields are unresolved. -/
def sampleStackFrame : StackFrame :=
  { fileName := some "/app/index.js"
    functionName := none
    lineNumber := none
    columnNumber := none }

/-- jsSplit always returns at least one component. -/
theorem jsSplit_ne_nil (sep : Char) (l : List Char) : jsSplit sep l ≠ [] := by
  induction l with
  | nil => simp [jsSplit]
  | cons c cs ih =>
    simp only [jsSplit]
    split
    · simp
    · split
      · simp
      · simp

/-- The first component of jsSplit is the longest separator-free prefix. -/
theorem jsSplit_headD (sep : Char) (l : List Char) :
    (jsSplit sep l).headD [] = l.takeWhile (fun c => c != sep) := by
  induction l with
  | nil => rfl
  | cons c cs ih =>
    by_cases h : c = sep
    · simp [jsSplit, h, List.takeWhile]
    · cases hsplit : jsSplit sep cs with
      | nil => exact absurd hsplit (jsSplit_ne_nil sep cs)
      | cons hd tl =>
        rw [hsplit] at ih
        simp only [jsSplit, if_neg h, hsplit, List.headD_cons, List.takeWhile] at ih ⊢
        have hb : (c != sep) = true := bne_iff_ne.mpr h
        rw [hb, ih]

/-- toMimeType is the spec mime type when that is non-empty, and the
text/plain fallback when it is empty. -/
theorem toMimeType_eq_specMimeType (ct : String) :
    toMimeType ct = if specMimeType ct = "" then "text/plain" else specMimeType ct := by
  simp only [toMimeType, specMimeType, jsSplit_headD]

/-- C1: for every completed record projected by the DevTools server, the four
CDP messages go out in the order requestWillBeSent, responseReceived,
dataReceived, loadingFinished, and each carries a requestId equal to the
record id. -/
theorem projectRecord_order_and_requestId (st n1 n2 n3 n4 : Int) (r : RequestDetail) :
    (projectRecord st n1 n2 n3 n4 r).map CDPMessage.method =
      ["Network.requestWillBeSent", "Network.responseReceived",
       "Network.dataReceived", "Network.loadingFinished"] ∧
    ∀ m ∈ projectRecord st n1 n2 n3 n4 r, m.requestId = r.id := by
  constructor
  · rfl
  · intro m hm
    simp only [projectRecord, responseReceived, List.mem_cons, List.mem_singleton,
      List.not_mem_nil, or_false] at hm
    rcases hm with h | h | h | h <;> subst h <;> rfl

/-- Witness for C1 at a concrete record. -/
theorem projectRecord_order_and_requestId_witness :
    (projectRecord 0 1 2 3 4 sampleRecord).map CDPMessage.method =
      ["Network.requestWillBeSent", "Network.responseReceived",
       "Network.dataReceived", "Network.loadingFinished"] ∧
    (requestWillBeSent 0 1 sampleRecord).requestId = "req1" :=
  ⟨(projectRecord_order_and_requestId 0 1 2 3 4 sampleRecord).1,
   (projectRecord_order_and_requestId 0 1 2 3 4 sampleRecord).2 _ (List.mem_cons_self _ _)⟩

/-- C3: statusText of the responseReceived frame is OK exactly when the
response status code is 200, and the empty string otherwise. -/
theorem responseReceived_statusText (st n : Int) (r : RequestDetail) :
    ((responseReceivedMsg st n r).response.map CDPResponse.statusText = some "OK" ↔
      r.responseStatusCode = some 200) ∧
    (r.responseStatusCode ≠ some 200 →
      (responseReceivedMsg st n r).response.map CDPResponse.statusText = some "") := by
  have key : (responseReceivedMsg st n r).response.map CDPResponse.statusText =
      some (if r.responseStatusCode == some 200 then "OK" else "") := rfl
  rw [key]
  by_cases h : r.responseStatusCode = some 200
  · simp [h]
  · have hb : (r.responseStatusCode == some 200) = false := beq_eq_false_iff_ne.mpr h
    simp [hb, h]

/-- Witness for C3: a 500 response yields an empty statusText. -/
theorem responseReceived_statusText_witness :
    (responseReceivedMsg 0 0 status500Record).response.map CDPResponse.statusText = some "" :=
  (responseReceived_statusText 0 0 status500Record).2 (by decide)

/-- C8: the requestWillBeSent and responseReceived frames always carry the
fixed module-level constants as frameId and loaderId. -/
theorem frames_carry_constant_ids (st n1 n2 : Int) (r : RequestDetail) :
    (requestWillBeSent st n1 r).frameId = some frameId ∧
    (requestWillBeSent st n1 r).loaderId = some loaderId ∧
    (responseReceivedMsg st n2 r).frameId = some frameId ∧
    (responseReceivedMsg st n2 r).loaderId = some loaderId ∧
    frameId = "517.528" ∧ loaderId = "517.529" :=
  ⟨rfl, rfl, rfl, rfl, rfl, rfl⟩

/-- The effective content type is the response content-type header when that
header is present and non-empty. -/
theorem effectiveContentType_of_header (r : RequestDetail) (ct : String)
    (hct : getHeader r.responseHeaders "content-type" = some ct) (hne : ct ≠ "") :
    effectiveContentType r = ct := by
  rw [effectiveContentType, hct]
  simp [jsOrString, hne]

/-- C2 counterexample: the content type application/xhtml+xml matches none of
image/*, */javascript, */css, text/html, so the claim classifies it Other,
but the code classifies it Document because the tests are substring tests. -/
theorem classifyType_xhtml_counterexample :
    classifyType "application/xhtml+xml" = "Document" ∧
    specClassifyType "application/xhtml+xml" = "Other" ∧
    classifyType "application/xhtml+xml" ≠ specClassifyType "application/xhtml+xml" := by
  refine ⟨?_, ?_, ?_⟩ <;> decide

/-- C2 amended: the type of the responseReceived frame is classified from the
response content type by substring containment, tested in the order image,
javascript, css, html, with Other as the fallback. -/
theorem responseReceived_type_amended (st n : Int) (r : RequestDetail) (ct : String)
    (hct : getHeader r.responseHeaders "content-type" = some ct) (hne : ct ≠ "") :
    (responseReceivedMsg st n r).type = some (classifyType ct) ∧
    (strContains ct "image" = true → classifyType ct = "Image") ∧
    (strContains ct "image" = false → strContains ct "javascript" = true →
      classifyType ct = "Script") ∧
    (strContains ct "image" = false → strContains ct "javascript" = false →
      strContains ct "css" = true → classifyType ct = "Stylesheet") ∧
    (strContains ct "image" = false → strContains ct "javascript" = false →
      strContains ct "css" = false → strContains ct "html" = true →
      classifyType ct = "Document") ∧
    (strContains ct "image" = false → strContains ct "javascript" = false →
      strContains ct "css" = false → strContains ct "html" = false →
      classifyType ct = "Other") := by
  have hect : effectiveContentType r = ct := effectiveContentType_of_header r ct hct hne
  refine ⟨?_, ?_, ?_, ?_, ?_, ?_⟩
  · have key : (responseReceivedMsg st n r).type =
        some (classifyType (effectiveContentType r)) := rfl
    rw [key, hect]
  all_goals intros
  all_goals unfold classifyType
  all_goals simp_all

/-- Witness for the amended C2 at a concrete record with content type
text/html. -/
theorem responseReceived_type_amended_witness :
    (responseReceivedMsg 0 0 htmlRecord).type = some "Document" := by
  have h := responseReceived_type_amended 0 0 htmlRecord "text/html" (by decide) (by decide)
  have hdoc : classifyType "text/html" = "Document" :=
    h.2.2.2.2.1 (by decide) (by decide) (by decide) (by decide)
  rw [h.1, hdoc]

/-- C4 counterexample: for the content type ;charset=utf-8 the substring
before the first semicolon is empty, but the emitted mimeType is the
text/plain fallback, not the empty string. -/
theorem responseReceived_mimeType_counterexample :
    specMimeType ";charset=utf-8" = "" ∧
    (responseReceivedMsg 0 0 semiRecord).response.map CDPResponse.mimeType =
      some "text/plain" := by
  exact ⟨rfl, rfl⟩

/-- C4 amended: the emitted mimeType is the content type stripped at the
first semicolon when that prefix is non-empty, and text/plain when the
prefix is empty. -/
theorem responseReceived_mimeType_amended (st n : Int) (r : RequestDetail) (ct : String)
    (hct : getHeader r.responseHeaders "content-type" = some ct) (hne : ct ≠ "") :
    (responseReceivedMsg st n r).response.map CDPResponse.mimeType =
      some (if specMimeType ct = "" then "text/plain" else specMimeType ct) := by
  have hect : effectiveContentType r = ct := effectiveContentType_of_header r ct hct hne
  have key : (responseReceivedMsg st n r).response.map CDPResponse.mimeType =
      some (toMimeType (effectiveContentType r)) := rfl
  rw [key, hect, toMimeType_eq_specMimeType]

/-- Witness for the amended C4 at a concrete record with content type
text/html; charset=utf-8. -/
theorem responseReceived_mimeType_amended_witness :
    (responseReceivedMsg 0 0 htmlCharsetRecord).response.map CDPResponse.mimeType =
      some "text/html" := by
  have h := responseReceived_mimeType_amended 0 0 htmlCharsetRecord
    "text/html; charset=utf-8" (by decide) (by decide)
  rw [h]
  decide

/-- C5 counterexample: a record whose request body exists but is the empty
string produces a requestWillBeSent frame without postData. -/
theorem requestWillBeSent_postData_counterexample :
    emptyBodyRecord.requestData = some (Json.str "") ∧
    (requestWillBeSent 0 0 emptyBodyRecord).request.map CDPRequest.postData = some none :=
  ⟨rfl, rfl⟩

/-- C5 amended: postData is present exactly when the request body exists and
is truthy in JavaScript; when present it is the JSON serialisation of the
body if the request content-type contains application/json, and the body
as-is otherwise. -/
theorem requestWillBeSent_postData (st n : Int) (r : RequestDetail) :
    (∀ body, r.requestData = some body → body.truthy = true →
      (requestWillBeSent st n r).request.map CDPRequest.postData =
        some (some (if jsonLikeContentType r then Json.str (Json.stringify body) else body))) ∧
    (∀ body, r.requestData = some body → body.truthy = false →
      (requestWillBeSent st n r).request.map CDPRequest.postData = some none) ∧
    (r.requestData = none →
      (requestWillBeSent st n r).request.map CDPRequest.postData = some none) := by
  refine ⟨?_, ?_, ?_⟩
  · intro body hb ht
    simp [requestWillBeSent, hb, ht]
  · intro body hb ht
    simp [requestWillBeSent, hb, ht]
  · intro hb
    simp [requestWillBeSent, hb]

/-- Witness for the amended C5: the JSON body with field k = 1 under
content-type application/json is serialised into postData. -/
theorem requestWillBeSent_postData_witness :
    (requestWillBeSent 0 0 sampleRecord).request.map CDPRequest.postData =
      some (some (Json.str "\x7b\"k\":1\x7d")) := by
  have h := (requestWillBeSent_postData 0 0 sampleRecord).1
    (Json.obj [("k", Json.num 1)]) rfl rfl
  rw [h]
  rfl

/-- C6: the flow of DevtoolServer.open launches the browser even when the
devMode flag is true, because the IS_DEV_MODE early return is commented out
in the source; this evaluates the model at the failing input devMode = true. -/
theorem open_launches_browser_in_devMode :
    ∀ staleTabFound darwin : Bool,
      OpenAction.launchBrowser ∈ devtoolOpenActions true staleTabFound darwin := by
  decide

/-- Every CDP timestamp is monotone in the wall clock reading. -/
theorem cdpTimestamp_mono (st : Int) {a b : Int} (hab : a ≤ b) :
    cdpTimestamp st a ≤ cdpTimestamp st b := by
  unfold cdpTimestamp
  gcongr

/-- C7: each of the four frame timestamps is recomputed from the wall clock
as seconds since server start, and with a non-decreasing wall clock the
timestamps within one record are non-decreasing. -/
theorem projectRecord_timestamps (st n1 n2 n3 n4 : Int)
    (h12 : n1 ≤ n2) (h23 : n2 ≤ n3) (h34 : n3 ≤ n4) (r : RequestDetail) :
    (projectRecord st n1 n2 n3 n4 r).map CDPMessage.timestamp =
      [cdpTimestamp st n1, cdpTimestamp st n2, cdpTimestamp st n3, cdpTimestamp st n4] ∧
    List.Chain' (fun a b => a ≤ b) ((projectRecord st n1 n2 n3 n4 r).map CDPMessage.timestamp) := by
  have hmap : (projectRecord st n1 n2 n3 n4 r).map CDPMessage.timestamp =
      [cdpTimestamp st n1, cdpTimestamp st n2, cdpTimestamp st n3, cdpTimestamp st n4] := rfl
  refine ⟨hmap, ?_⟩
  rw [hmap]
  exact List.chain'_cons.mpr ⟨cdpTimestamp_mono st h12,
    List.chain'_cons.mpr ⟨cdpTimestamp_mono st h23,
      List.chain'_cons.mpr ⟨cdpTimestamp_mono st h34, List.chain'_singleton _⟩⟩⟩

/-- Witness for C7 at concrete clock readings 0, 1, 2, 3. -/
theorem projectRecord_timestamps_witness :
    (projectRecord 0 0 1 2 3 sampleRecord).map CDPMessage.timestamp =
      [cdpTimestamp 0 0, cdpTimestamp 0 1, cdpTimestamp 0 2, cdpTimestamp 0 3] ∧
    List.Chain' (fun a b => a ≤ b) ((projectRecord 0 0 1 2 3 sampleRecord).map CDPMessage.timestamp) :=
  projectRecord_timestamps 0 0 1 2 3 (by decide) (by decide) (by decide) sampleRecord

/-- C9: in the call-frame mapping of the RequestDetail constructor, a file
name beginning with a slash is rewritten to a file:// url, an empty or
missing file name yields an empty url, and unresolved functionName,
lineNumber and columnNumber default to the empty string or 0. -/
theorem toCDPCallFrame_defaults (frame : StackFrame) :
    (∀ f, frame.fileName = some f → strStartsWith f "/" = true →
      (toCDPCallFrame frame).url = "file://" ++ f) ∧
    (frame.fileName = some "" ∨ frame.fileName = none → (toCDPCallFrame frame).url = "") ∧
    (frame.functionName = none → (toCDPCallFrame frame).functionName = "") ∧
    (frame.lineNumber = none → (toCDPCallFrame frame).lineNumber = 0) ∧
    (frame.columnNumber = none → (toCDPCallFrame frame).columnNumber = 0) := by
  refine ⟨?_, ?_, ?_, ?_, ?_⟩
  · intro f hf hpre
    have hfne : f ≠ "" := by
      intro he
      subst he
      exact absurd hpre (by decide)
    simp [toCDPCallFrame, hf, jsOrString, hfne, hpre]
  · rintro (h | h) <;> simp [toCDPCallFrame, h, jsOrString] <;> decide
  · intro h
    simp [toCDPCallFrame, h, jsOrString]
  · intro h
    simp [toCDPCallFrame, h, jsOrNat]
  · intro h
    simp [toCDPCallFrame, h, jsOrNat]

/-- Witness for C9 at a concrete stack frame with an absolute path and all
other fields unresolved. -/
theorem toCDPCallFrame_defaults_witness :
    (toCDPCallFrame sampleStackFrame).url = "file:///app/index.js" ∧
    (toCDPCallFrame sampleStackFrame).functionName = "" ∧
    (toCDPCallFrame sampleStackFrame).lineNumber = 0 ∧
    (toCDPCallFrame sampleStackFrame).columnNumber = 0 :=
  ⟨(toCDPCallFrame_defaults sampleStackFrame).1 "/app/index.js" rfl (by decide),
   (toCDPCallFrame_defaults sampleStackFrame).2.2.1 rfl,
   (toCDPCallFrame_defaults sampleStackFrame).2.2.2.1 rfl,
   (toCDPCallFrame_defaults sampleStackFrame).2.2.2.2 rfl⟩

/-- C10: when the response headers carry no content-type header, the
projection substitutes text/plain; charset=utf-8, so the responseReceived
frame has type Other and mimeType text/plain. -/
theorem responseReceived_missing_content_type (st n : Int) (r : RequestDetail)
    (h : getHeader r.responseHeaders "content-type" = none) :
    effectiveContentType r = "text/plain; charset=utf-8" ∧
    (responseReceivedMsg st n r).type = some "Other" ∧
    (responseReceivedMsg st n r).response.map CDPResponse.mimeType = some "text/plain" := by
  have hect : effectiveContentType r = "text/plain; charset=utf-8" := by
    rw [effectiveContentType, h]
    rfl
  refine ⟨hect, ?_, ?_⟩
  · have key : (responseReceivedMsg st n r).type =
        some (classifyType (effectiveContentType r)) := rfl
    rw [key, hect]
    decide
  · have key : (responseReceivedMsg st n r).response.map CDPResponse.mimeType =
        some (toMimeType (effectiveContentType r)) := rfl
    rw [key, hect]
    decide

/-- Witness for C10 at a concrete record with no response headers. -/
theorem responseReceived_missing_content_type_witness :
    (responseReceivedMsg 0 0 noContentTypeRecord).type = some "Other" ∧
    (responseReceivedMsg 0 0 noContentTypeRecord).response.map CDPResponse.mimeType =
      some "text/plain" :=
  ⟨(responseReceived_missing_content_type 0 0 noContentTypeRecord rfl).2.1,
   (responseReceived_missing_content_type 0 0 noContentTypeRecord rfl).2.2⟩

end NodeNetworkDevtools
